import Mathlib

/-!
Verification of the gesture-interpretation core of `src/App.tsx`
(ymengsea-dev/christmas_tree).

The per-frame body of `predictWebcam` (App.tsx lines 1483-1620) is embedded
as a pure step function on the stored pinch flag `isPinchingRef`.  Callback
invocations (`onGesture`, `onMove`, `onPinchStart`, `onPinchEnd`) become an
emitted event list, in the order the code performs them.  Coordinates and
scores are rationals.  A frame whose data would make the JavaScript dereference
`undefined` (e.g. `results.gestures[0][0]` with an empty inner array) maps to
`none`.  The scene-controller reactions in `GrandTreeApp` (lines 1661-1707)
are embedded as functions on a `SceneState` record.
-/

/-- One normalized 3D hand landmark, as delivered by the recognizer. -/
structure Landmark where
  x : ℚ
  y : ℚ
  z : ℚ
deriving DecidableEq, Repr

/-- One classified gesture: `categoryName` and confidence `score`
(App.tsx lines 1524-1525). -/
structure Gesture where
  categoryName : String
  score : ℚ
deriving DecidableEq, Repr

/-- One recognizer result per frame: `results.landmarks` and `results.gestures`
as consumed by `predictWebcam`. -/
structure Frame where
  landmarks : List (List Landmark)
  gestures : List (List Gesture)
deriving DecidableEq, Repr

/-- The two formation states, the values passed to `onGesture`. -/
inductive Formation where
  | CHAOS
  | FORMED
deriving DecidableEq, Repr

/-- The discrete events the interpreter emits via its callbacks. -/
inductive Event where
  | SetFormation (f : Formation)
  | SetRotationSpeed (v : ℚ)
  | PinchStart (x y : ℚ)
  | PinchEnd
deriving DecidableEq, Repr

/-- Gesture-classification block, App.tsx lines 1522-1532: if
`results.gestures` is nonempty, read `results.gestures[0][0]`; when its score
exceeds 0.4, record it as the current gesture and emit a formation event for
`Open_Palm` / `Closed_Fist`.  `none` models the JavaScript crash when the
first inner array is empty. -/
def classify (gs : List (List Gesture)) : Option (List Event × Option String) :=
  match gs with
  | [] => some ([], none)
  | [] :: _ => none
  | (g :: _) :: _ =>
    if (2 : ℚ)/5 < g.score then
      some ((if g.categoryName = "Open_Palm" then [Event.SetFormation Formation.CHAOS] else [])
              ++ (if g.categoryName = "Closed_Fist" then [Event.SetFormation Formation.FORMED] else []),
            some g.categoryName)
    else
      some ([], none)

/-- Absolute value, as JavaScript `Math.abs`, on rationals. -/
def ratAbs (q : ℚ) : ℚ := if q < 0 then -q else q

/-- Squared thumb-tip/index-tip distance `dx*dx + dy*dy + dz*dz`, App.tsx
lines 1549-1552. -/
def thumbIndexDistSq (hand : List Landmark) : ℚ :=
  let t := hand.getD 4 ⟨0, 0, 0⟩
  let i := hand.getD 8 ⟨0, 0, 0⟩
  (t.x - i.x) * (t.x - i.x) + (t.y - i.y) * (t.y - i.y) + (t.z - i.z) * (t.z - i.z)

/-- The pinch test `isCurrentlyPinching`, App.tsx line 1566.  The code compares
`Math.sqrt(distSq) < 0.08`; both sides being nonnegative, this is equivalent
to `distSq < 0.08 * 0.08`, which stays in ℚ. -/
def isCurrentlyPinching (hand : List Landmark) : Bool :=
  decide (thumbIndexDistSq hand < (8 : ℚ)/100 * ((8 : ℚ)/100))

/-- Pinch-center coordinates emitted with `PinchStart`, App.tsx lines
1573-1578: midpoint of landmarks 4 and 8, vertical axis flipped. -/
def pinchCenter (hand : List Landmark) : ℚ × ℚ :=
  let t := hand.getD 4 ⟨0, 0, 0⟩
  let i := hand.getD 8 ⟨0, 0, 0⟩
  ((t.x + i.x) / 2, 1 - (t.y + i.y) / 2)

/-- The pinch block of `predictWebcam`, App.tsx lines 1544-1612, run when a
hand is present.  The guard requires at least 9 landmarks and a current
gesture other than `Open_Palm`; inside it, pinch edges fire on transitions of
the stored flag.  The `else` branch (lines 1604-1611) — which the code
reaches when the guard fails, i.e. with a hand still present — force-resets
the flag, emitting `PinchEnd` if it was set.  Returns (emitted pinch events,
new stored flag). -/
def pinchStep (cg : Option String) (p : Bool) (hand : List Landmark) :
    List Event × Bool :=
  if 9 ≤ hand.length ∧ cg ≠ some "Open_Palm" then
    let cur := isCurrentlyPinching hand
    if cur && !p then
      ([Event.PinchStart (pinchCenter hand).1 (pinchCenter hand).2], true)
    else if !cur && p then
      ([Event.PinchEnd], false)
    else
      ([], p)
  else
    if p then ([Event.PinchEnd], false) else ([], p)

/-- Rotation speed emitted for reference landmark `p0` (the wrist), App.tsx
lines 1539-1540: `(0.5 - landmarks[0].x) * 0.15`, suppressed to 0 inside the
0.01 dead zone. -/
def rotValue (p0 : Landmark) : ℚ :=
  let speed := ((1 : ℚ)/2 - p0.x) * ((15 : ℚ)/100)
  if (1 : ℚ)/100 < ratAbs speed then speed else 0

/-- One frame of `predictWebcam`, App.tsx lines 1521-1616: gesture
classification, then — if `results.landmarks` is nonempty — rotation speed
from landmark 0 with the 0.01 dead zone (lines 1538-1540) followed by the
pinch block; with no hand, `onMove(0)` alone (lines 1613-1616; the stored
pinch flag is not touched there).  `none` models a JavaScript `undefined`
dereference (empty first inner array). -/
def step (p : Bool) (fr : Frame) : Option (List Event × Bool) :=
  match classify fr.gestures with
  | none => none
  | some (gevs, cg) =>
    match fr.landmarks with
    | [] => some (gevs ++ [Event.SetRotationSpeed 0], p)
    | hand :: _ =>
      match hand with
      | [] => none
      | p0 :: _ =>
        let pr := pinchStep cg p hand
        some (gevs ++ Event.SetRotationSpeed (rotValue p0) :: pr.1, pr.2)

/-- Process a sequence of frames, threading the stored pinch flag and
concatenating the emitted events. -/
def runFrames (p : Bool) : List Frame → Option (List Event × Bool)
  | [] => some ([], p)
  | f :: fs =>
    (step p f).bind fun r => (runFrames r.2 fs).map fun q => (r.1 ++ q.1, q.2)

/-- Recognizer-reported current gesture of a frame (the value the pinch guard
compares against `"Open_Palm"`), when classification does not crash. -/
def currentGestureOf (fr : Frame) : Option String :=
  match classify fr.gestures with
  | some (_, cg) => cg
  | none => none

/-- First entry of `results.gestures[0]`, when present. -/
def firstGesture (fr : Frame) : Option Gesture :=
  match fr.gestures with
  | (g :: _) :: _ => some g
  | _ => none

/-- Whether an event is a `PinchStart`. -/
def Event.isStart : Event → Bool
  | .PinchStart _ _ => true
  | _ => false

/-- Whether an event is a `PinchEnd`. -/
def Event.isEnd : Event → Bool
  | .PinchEnd => true
  | _ => false

/-- Number of `PinchStart` events in a list. -/
def countStarts (evs : List Event) : ℕ := evs.countP Event.isStart

/-- Number of `PinchEnd` events in a list. -/
def countEnds (evs : List Event) : ℕ := evs.countP Event.isEnd

/-- The pinch events of a list, in order. -/
def pinchEvents (evs : List Event) : List Event :=
  evs.filter (fun e => e.isStart || e.isEnd)

/-- The values carried by `SetRotationSpeed` events, in order. -/
def rotationValues (evs : List Event) : List ℚ :=
  evs.filterMap (fun e => match e with | .SetRotationSpeed v => some v | _ => none)

/-- The pinch predicate of a frame: thumb/index distance of the first hand
below 0.08 (false when no hand is present). -/
def pinchPredicate (fr : Frame) : Bool :=
  match fr.landmarks with
  | hand :: _ => isCurrentlyPinching hand
  | [] => false

/-- A frame on which the pinch block's guard (App.tsx line 1544) passes:
hand present, at least 9 landmarks, current gesture not `Open_Palm`. -/
def pinchEvaluated (fr : Frame) : Bool :=
  (match fr.landmarks with
   | hand :: _ => decide (9 ≤ hand.length)
   | [] => false)
  && decide (currentGestureOf fr ≠ some "Open_Palm")

/-- Number of false→true transitions in a Boolean trace, relative to an
initial value. -/
def countRises : Bool → List Bool → ℕ
  | _, [] => 0
  | p, b :: bs => (if b && !p then 1 else 0) + countRises b bs

/-- Number of true→false transitions in a Boolean trace, relative to an
initial value. -/
def countFalls : Bool → List Bool → ℕ
  | _, [] => 0
  | p, b :: bs => (if !b && p then 1 else 0) + countFalls b bs

/-- The origin landmark. -/
def zl : Landmark := ⟨0, 0, 0⟩

/-- A 21-landmark hand whose thumb tip (index 4) sits at the origin and whose
index tip (index 8) sits at distance `d` along the x axis; all other
landmarks, including the wrist (index 0), at the origin. -/
def handLm (d : ℚ) : List Landmark :=
  [zl, zl, zl, zl, zl, zl, zl, zl, ⟨d, 0, 0⟩,
   zl, zl, zl, zl, zl, zl, zl, zl, zl, zl, zl, zl]

/-- A frame with one such hand and no classified gesture. -/
def plainFrame (d : ℚ) : Frame := ⟨[handLm d], []⟩

/-- A frame with one such hand and an `Open_Palm` classification of score
`sc`. -/
def palmFrame (d sc : ℚ) : Frame := ⟨[handLm d], [[⟨"Open_Palm", sc⟩]]⟩

/-- A frame with no hand at all. -/
def noHandFrame : Frame := ⟨[], []⟩

/-- A frame whose hand has only 5 landmarks (malformed: neither 21 nor ≥ 9). -/
def shortHandFrame : Frame := ⟨[[zl, zl, zl, zl, zl]], []⟩

/-- Spec-side rotation rule (spec section 4.1): with a hand present the speed
is `(0.5 - landmark[0].x) * 0.15` outside the 0.01 dead zone and exactly 0
inside it; with no hand it is 0. -/
def specRotationSpeed (fr : Frame) : ℚ :=
  match fr.landmarks with
  | (p0 :: _) :: _ => rotValue p0
  | _ => 0

/-- Number of hanging photo ornaments, `CONFIG.counts.ornaments`
(App.tsx line 70). -/
def ornamentCount : ℕ := 72

/-- The scene-controller state held by `GrandTreeApp` (App.tsx lines
1662-1668): formation (`sceneState`), `rotationSpeed`, and the selected photo
index (`selectedPhotoIndex`). -/
structure SceneState where
  formation : Formation
  rotationSpeed : ℚ
  selected : Option ℕ
deriving DecidableEq, Repr

/-- Applying a formation event: `onGesture` is `setSceneState` (App.tsx line
1742), and the effect at lines 1703-1707 clears `selectedPhotoIndex` whenever
the new state is `FORMED`. -/
def applySetFormation (s : SceneState) (f : Formation) : SceneState :=
  { s with formation := f,
           selected := if f = Formation.FORMED then none else s.selected }

/-- The fallback draw `Math.floor(Math.random() * CONFIG.counts.ornaments)` (App.tsx line 1686)
for a random draw `r` in `[0, 1)`. -/
def randomFallback (r : ℚ) : ℕ := (⌊r * (ornamentCount : ℚ)⌋).toNat

/-- The handler `handlePinchStart`, App.tsx lines 1671-1695: ignored unless the scene is
in `CHAOS`; otherwise select the hit-test collaborator's result `hit`
(`window.findClosestPhoto`, `none` both when the function is unavailable and
when it reports no match), falling back to a random ornament index drawn from
`r`. -/
def handlePinchStart (s : SceneState) (hit : Option ℕ) (r : ℚ) : SceneState :=
  if s.formation ≠ Formation.CHAOS then s
  else { s with selected := some (hit.getD (randomFallback r)) }

/-- The handler `handlePinchEnd`, App.tsx lines 1698-1700: clear the selected photo. -/
def handlePinchEnd (s : SceneState) : SceneState := { s with selected := none }


/-- Evaluation: a non-pinching plain frame emits only the rotation speed. -/
lemma stepEval_plain02 : step false (plainFrame (1/5)) =
    some ([Event.SetRotationSpeed (3/40)], false) := by
  norm_num [step, classify, pinchStep, isCurrentlyPinching, thumbIndexDistSq,
    pinchCenter, ratAbs, rotValue, handLm, plainFrame, zl, List.getD_cons_zero, List.getD_cons_succ]
  try simp

/-- Evaluation: a pinching plain frame from the unset flag emits the rotation
speed and one `PinchStart` at the flipped midpoint. -/
lemma stepEval_plain005 : step false (plainFrame (1/20)) =
    some ([Event.SetRotationSpeed (3/40), Event.PinchStart (1/40) 1], true) := by
  norm_num [step, classify, pinchStep, isCurrentlyPinching, thumbIndexDistSq,
    pinchCenter, ratAbs, rotValue, handLm, plainFrame, zl, List.getD_cons_zero, List.getD_cons_succ]
  try simp

/-- Evaluation: a non-pinching plain frame from the set flag emits the rotation
speed and one `PinchEnd`. -/
lemma stepEval_plain02_true : step true (plainFrame (1/5)) =
    some ([Event.SetRotationSpeed (3/40), Event.PinchEnd], false) := by
  norm_num [step, classify, pinchStep, isCurrentlyPinching, thumbIndexDistSq,
    pinchCenter, ratAbs, rotValue, handLm, plainFrame, zl, List.getD_cons_zero, List.getD_cons_succ]
  try simp

/-- Evaluation: with the stored flag set, a no-hand frame emits only
`SetRotationSpeed 0` and leaves the flag set. -/
lemma stepEval_noHand_true : step true noHandFrame =
    some ([Event.SetRotationSpeed 0], true) := by
  norm_num [step, classify, noHandFrame]

/-- Evaluation: with the stored flag set, a confident `Open_Palm` frame with a
pinching hand emits the formation event, the rotation speed, and one
`PinchEnd`. -/
lemma stepEval_palm_true : step true (palmFrame (1/20) (1/2)) =
    some ([Event.SetFormation Formation.CHAOS, Event.SetRotationSpeed (3/40),
           Event.PinchEnd], false) := by
  norm_num [step, classify, pinchStep, isCurrentlyPinching, thumbIndexDistSq,
    pinchCenter, ratAbs, rotValue, handLm, palmFrame, zl, List.getD_cons_zero, List.getD_cons_succ]
  try simp

/-- Evaluation: a 5-landmark hand still drives rotation from landmark 0. -/
lemma stepEval_short : step false shortHandFrame =
    some ([Event.SetRotationSpeed (3/40)], false) := by
  norm_num [step, classify, pinchStep, shortHandFrame, ratAbs, rotValue, zl]

/-- Evaluation: the hand with thumb/index distance 0.05 satisfies the pinch
predicate. -/
lemma isPinching_005 : isCurrentlyPinching (handLm (1/20)) = true := by
  norm_num [isCurrentlyPinching, thumbIndexDistSq, handLm, zl,
    List.getD_cons_zero, List.getD_cons_succ]

/-- Evaluation: the hand with thumb/index distance 0.20 fails the pinch
predicate. -/
lemma isPinching_02 : isCurrentlyPinching (handLm (1/5)) = false := by
  norm_num [isCurrentlyPinching, thumbIndexDistSq, handLm, zl,
    List.getD_cons_zero, List.getD_cons_succ]

/-- Evaluation: the spec's three-frame synthetic sequence, distance
0.20 → 0.05 → 0.20, starting unpinched. -/
lemma runEval_spec3 :
    runFrames false [plainFrame (1/5), plainFrame (1/20), plainFrame (1/5)] =
      some ([Event.SetRotationSpeed (3/40),
             Event.SetRotationSpeed (3/40), Event.PinchStart (1/40) 1,
             Event.SetRotationSpeed (3/40), Event.PinchEnd], false) := by
  simp only [runFrames, stepEval_plain02, stepEval_plain005, stepEval_plain02_true,
    Option.some_bind, Option.map_some']
  rfl

/-- Evaluation: a pinching frame, then a confident `Open_Palm` frame with the
hand still pinched, then the same pinching frame again. -/
lemma runEval_palmBreak :
    runFrames false
        [plainFrame (1/20), palmFrame (1/20) (1/2), plainFrame (1/20)] =
      some ([Event.SetRotationSpeed (3/40), Event.PinchStart (1/40) 1,
             Event.SetFormation Formation.CHAOS, Event.SetRotationSpeed (3/40),
             Event.PinchEnd,
             Event.SetRotationSpeed (3/40), Event.PinchStart (1/40) 1], true) := by
  simp only [runFrames, stepEval_plain005, stepEval_palm_true,
    Option.some_bind, Option.map_some']
  rfl

/-- A successful classification emits at most one event, and only a
formation event. -/
lemma classify_shape (gs : List (List Gesture)) (gevs : List Event)
    (cg : Option String) (h : classify gs = some (gevs, cg)) :
    gevs = [] ∨ gevs = [Event.SetFormation Formation.CHAOS] ∨
      gevs = [Event.SetFormation Formation.FORMED] := by
  rcases gs with _ | ⟨_ | ⟨g, gtl⟩, gss⟩
  · simp [classify] at h
    exact Or.inl h.1
  · simp [classify] at h
  · by_cases hs : (2 : ℚ)/5 < g.score
    · rw [classify] at h
      rw [if_pos hs] at h
      by_cases hop : g.categoryName = "Open_Palm"
      · rw [if_pos hop] at h
        rw [if_neg (by rw [hop]; decide)] at h
        simp at h
        exact Or.inr (Or.inl h.1.symm)
      · rw [if_neg hop] at h
        by_cases hcf : g.categoryName = "Closed_Fist"
        · rw [if_pos hcf] at h
          simp at h
          exact Or.inr (Or.inr h.1.symm)
        · rw [if_neg hcf] at h
          simp at h
          exact Or.inl h.1
    · rw [classify] at h
      rw [if_neg hs] at h
      simp at h
      exact Or.inl h.1

/-- Formation events carry no pinch or rotation content. -/
lemma classify_counts (gs : List (List Gesture)) (gevs : List Event)
    (cg : Option String) (h : classify gs = some (gevs, cg)) :
    countStarts gevs = 0 ∧ countEnds gevs = 0 ∧ rotationValues gevs = [] := by
  rcases classify_shape gs gevs cg h with h1 | h1 | h1 <;> subst h1 <;>
    exact ⟨rfl, rfl, rfl⟩

/-- When the pinch guard passes, the pinch block is a pure edge detector: the
new stored flag is the current pinch predicate, and the emitted event is
determined by the (old flag, predicate) pair. -/
lemma pinchStep_guard (cg : Option String) (p : Bool) (hand : List Landmark)
    (h9 : 9 ≤ hand.length) (hcg : cg ≠ some "Open_Palm") :
    pinchStep cg p hand =
      (if isCurrentlyPinching hand && !p then
          [Event.PinchStart (pinchCenter hand).1 (pinchCenter hand).2]
        else if !(isCurrentlyPinching hand) && p then [Event.PinchEnd]
        else [],
       isCurrentlyPinching hand) := by
  unfold pinchStep
  rw [if_pos ⟨h9, hcg⟩]
  cases hc : isCurrentlyPinching hand <;> cases p <;> simp

/-- When the pinch guard fails with a hand present (fewer than 9 landmarks or
an `Open_Palm` current gesture), the block force-resets the flag and emits
`PinchEnd` exactly when the flag was set. -/
lemma pinchStep_noGuard (cg : Option String) (p : Bool) (hand : List Landmark)
    (h : ¬(9 ≤ hand.length ∧ cg ≠ some "Open_Palm")) :
    pinchStep cg p hand = (if p then [Event.PinchEnd] else [], false) := by
  unfold pinchStep
  rw [if_neg h]
  cases p <;> simp

/-- Inversion for a successful frame step: the classification succeeded, and
the result decomposes by the shape of `results.landmarks`. -/
lemma step_shape (p : Bool) (fr : Frame) (evs : List Event) (s : Bool)
    (h : step p fr = some (evs, s)) :
    ∃ gevs cg, classify fr.gestures = some (gevs, cg) ∧
      ((fr.landmarks = [] ∧ evs = gevs ++ [Event.SetRotationSpeed 0] ∧ s = p) ∨
       (∃ p0 rest tl, fr.landmarks = (p0 :: rest) :: tl ∧
         evs = gevs ++ Event.SetRotationSpeed (rotValue p0) ::
                 (pinchStep cg p (p0 :: rest)).1 ∧
         s = (pinchStep cg p (p0 :: rest)).2)) := by
  unfold step at h
  rcases hc : classify fr.gestures with _ | ⟨gevs, cg⟩ <;> rw [hc] at h
  · cases h
  · rcases hl : fr.landmarks with _ | ⟨hand, tl⟩ <;> rw [hl] at h
    · simp at h
      exact ⟨gevs, cg, rfl, Or.inl ⟨rfl, h.1.symm, h.2.symm⟩⟩
    · rcases hand with _ | ⟨p0, rest⟩
      · cases h
      · simp at h
        exact ⟨gevs, cg, rfl, Or.inr ⟨p0, rest, tl, rfl, h.1.symm, h.2.symm⟩⟩

/-- The `PinchStart` count of the empty list. -/
lemma countStarts_nil : countStarts [] = 0 := rfl

/-- The `PinchEnd` count of the empty list. -/
lemma countEnds_nil : countEnds [] = 0 := rfl

/-- Splitting `PinchStart` counts over concatenation. -/
lemma countStarts_append (a b : List Event) :
    countStarts (a ++ b) = countStarts a + countStarts b := by
  simp [countStarts, List.countP_append]

/-- Splitting `PinchEnd` counts over concatenation. -/
lemma countEnds_append (a b : List Event) :
    countEnds (a ++ b) = countEnds a + countEnds b := by
  simp [countEnds, List.countP_append]

/-- Unfolding `PinchStart` counts over cons. -/
lemma countStarts_cons (e : Event) (l : List Event) :
    countStarts (e :: l) = (if e.isStart then 1 else 0) + countStarts l := by
  simp [countStarts, List.countP_cons]
  omega

/-- Unfolding `PinchEnd` counts over cons. -/
lemma countEnds_cons (e : Event) (l : List Event) :
    countEnds (e :: l) = (if e.isEnd then 1 else 0) + countEnds l := by
  simp [countEnds, List.countP_cons]
  omega

/-- On a frame passing the pinch guard, a successful step is a pure edge
detector: the new stored flag equals the frame's pinch predicate, one
`PinchStart` is emitted exactly on a false→true edge, one `PinchEnd` exactly
on a true→false edge. -/
lemma step_evaluated (p : Bool) (fr : Frame) (evs : List Event) (s : Bool)
    (h : step p fr = some (evs, s)) (he : pinchEvaluated fr = true) :
    s = pinchPredicate fr ∧
    countStarts evs = (if pinchPredicate fr && !p then 1 else 0) ∧
    countEnds evs = (if !(pinchPredicate fr) && p then 1 else 0) := by
  obtain ⟨gevs, cg, hc, hcase⟩ := step_shape p fr evs s h
  rcases hcase with ⟨hl, he1, hs⟩ | ⟨p0, rest, tl, hl, he1, hs⟩
  · rw [pinchEvaluated, hl] at he
    simp at he
  · have hel := he
    rw [pinchEvaluated, hl] at hel
    simp [currentGestureOf, hc] at hel
    have h9 : 9 ≤ (p0 :: rest).length := by simp; omega
    have hcg : cg ≠ some "Open_Palm" := hel.2
    rw [pinchStep_guard cg p _ h9 hcg] at he1 hs
    subst he1
    have hpred : pinchPredicate fr = isCurrentlyPinching (p0 :: rest) := by
      rw [pinchPredicate, hl]
    obtain ⟨hg1, hg2, _⟩ := classify_counts _ _ _ hc
    rw [hpred, hs]
    cases hcur : isCurrentlyPinching (p0 :: rest) <;> cases p <;>
      simp [countStarts_append, countEnds_append, countStarts_cons, countEnds_cons,
            countStarts_nil, countEnds_nil, hg1, hg2, Event.isStart, Event.isEnd]

/-- Over any sequence of frames that all pass the pinch guard, the number of
`PinchStart` (resp. `PinchEnd`) events equals the number of false→true
(resp. true→false) transitions of the pinch predicate, relative to the
initial stored flag. -/
lemma runFrames_counts (fs : List Frame) : ∀ (p : Bool) (evs : List Event) (s : Bool),
    (∀ f ∈ fs, pinchEvaluated f = true) → runFrames p fs = some (evs, s) →
    countStarts evs = countRises p (fs.map pinchPredicate) ∧
    countEnds evs = countFalls p (fs.map pinchPredicate) := by
  induction fs with
  | nil =>
    intro p evs s _ h
    simp [runFrames] at h
    obtain ⟨h1, h2⟩ := h
    subst h1
    simp [countRises, countFalls, countStarts_nil, countEnds_nil]
  | cons f fs ih =>
    intro p evs s hall h
    rw [runFrames] at h
    rcases hs : step p f with _ | ⟨evs1, p1⟩ <;> rw [hs] at h
    · cases h
    · simp only [Option.some_bind] at h
      rcases hr : runFrames p1 fs with _ | ⟨evs2, p2⟩ <;> rw [hr] at h
      · cases h
      · simp only [Option.map_some'] at h
        simp at h
        obtain ⟨h1, h2⟩ := h
        obtain ⟨hps, hc1, hc2⟩ :=
          step_evaluated p f evs1 p1 hs (hall f (by simp))
        obtain ⟨hr1, hr2⟩ := ih p1 evs2 p2 (fun g hg => hall g (by simp [hg])) hr
        subst h1
        constructor
        · rw [countStarts_append, hc1, hr1, List.map_cons, countRises, hps]
        · rw [countEnds_append, hc2, hr2, List.map_cons, countFalls, hps]

/-- Forward evaluation of a frame step when a nonempty hand is present. -/
lemma step_eval_hand (p : Bool) (fr : Frame) (gevs : List Event)
    (cg : Option String) (p0 : Landmark) (rest : List Landmark)
    (tl : List (List Landmark)) (hc : classify fr.gestures = some (gevs, cg))
    (hl : fr.landmarks = (p0 :: rest) :: tl) :
    step p fr = some (gevs ++ Event.SetRotationSpeed (rotValue p0) ::
      (pinchStep cg p (p0 :: rest)).1, (pinchStep cg p (p0 :: rest)).2) := by
  unfold step
  rw [hc, hl]

/-- The pinch block never emits a formation event. -/
lemma pinchStep_no_formation (cg : Option String) (p : Bool)
    (hand : List Landmark) (f : Formation) :
    Event.SetFormation f ∉ (pinchStep cg p hand).1 := by
  unfold pinchStep
  dsimp only
  split
  · split
    · simp
    · split <;> simp
  · split <;> simp

/-- The pinch block never emits a rotation event. -/
lemma pinchStep_no_rotation (cg : Option String) (p : Bool)
    (hand : List Landmark) :
    rotationValues (pinchStep cg p hand).1 = [] := by
  unfold pinchStep
  dsimp only
  split
  · split
    · simp [rotationValues]
    · split <;> simp [rotationValues]
  · split <;> simp [rotationValues]

/-- Any `PinchStart` the pinch block emits carries the pinch-center
coordinates, and only arises with at least 9 landmarks. -/
lemma pinchStep_start_mem (cg : Option String) (p : Bool)
    (hand : List Landmark) (x y : ℚ)
    (hm : Event.PinchStart x y ∈ (pinchStep cg p hand).1) :
    9 ≤ hand.length ∧ x = (pinchCenter hand).1 ∧ y = (pinchCenter hand).2 := by
  unfold pinchStep at hm
  dsimp only at hm
  split at hm
  · rename_i hguard
    split at hm
    · simp at hm
      exact ⟨hguard.1, hm.1, hm.2⟩
    · split at hm <;> simp at hm
  · split at hm <;> simp at hm

/-- In-bounds `getD` access agrees with `get?`. -/
lemma get?_of_getD (l : List Landmark) (n : ℕ) (hn : n < l.length) :
    l.get? n = some (l.getD n ⟨0, 0, 0⟩) := by
  rw [List.getD_eq_getElem?_getD, List.get?_eq_getElem?, List.getElem?_eq_getElem hn]
  rfl

/-- Evaluation: the frames of the synthetic sequences satisfy the pinch
guard. -/
lemma pinchEval_plain (d : ℚ) : pinchEvaluated (plainFrame d) = true := by
  simp [pinchEvaluated, plainFrame, handLm, currentGestureOf, classify]

/-- Evaluation: the 0.20-distance plain frame does not satisfy the pinch
predicate. -/
lemma pinchPred_plain02 : pinchPredicate (plainFrame (1/5)) = false :=
  isPinching_02

/-- C1 (amended): pinch events are edge-triggered.  (a) Over every frame
sequence whose frames all pass the pinch guard (hand present, ≥ 9 landmarks,
current gesture not `Open_Palm`), `PinchStart` is emitted exactly once per
false→true transition of the thumb/index distance-below-0.08 predicate and
`PinchEnd` exactly once per true→false transition, relative to the initial
stored flag; (b) a guarded frame whose predicate equals the stored flag emits
no pinch event; (c) the three-frame distance sequence 0.20 → 0.05 → 0.20
emits exactly one `PinchStart` followed by one `PinchEnd`, in that order. -/
theorem C1_pinch_edge_triggered :
    (∀ (init : Bool) (fs : List Frame) (evs : List Event) (s : Bool),
        (∀ f ∈ fs, pinchEvaluated f = true) → runFrames init fs = some (evs, s) →
        countStarts evs = countRises init (fs.map pinchPredicate) ∧
        countEnds evs = countFalls init (fs.map pinchPredicate)) ∧
    (∀ (p : Bool) (fr : Frame) (evs : List Event) (s : Bool),
        pinchEvaluated fr = true → step p fr = some (evs, s) →
        pinchPredicate fr = p → countStarts evs = 0 ∧ countEnds evs = 0) ∧
    (runFrames false [plainFrame (1/5), plainFrame (1/20), plainFrame (1/5)]).map
        (fun r => pinchEvents r.1) =
      some [Event.PinchStart (1/40) 1, Event.PinchEnd] := by
  refine ⟨fun init fs evs s h1 h2 => runFrames_counts fs init evs s h1 h2,
          fun p fr evs s he h hsame => ?_, ?_⟩
  · obtain ⟨_, hc1, hc2⟩ := step_evaluated p fr evs s h he
    rw [hsame] at hc1 hc2
    cases p <;> simp at hc1 hc2 <;> exact ⟨hc1, hc2⟩
  · rw [runEval_spec3]
    rfl

/-- C1 witness: the guarded 0.20-distance frame leaves the unset flag
unchanged and emits no pinch event. -/
theorem C1_pinch_edge_triggered_witness :
    countStarts [Event.SetRotationSpeed (3/40)] = 0 ∧
    countEnds [Event.SetRotationSpeed (3/40)] = 0 :=
  C1_pinch_edge_triggered.2.1 false (plainFrame (1/5))
    [Event.SetRotationSpeed (3/40)] false (pinchEval_plain (1/5))
    stepEval_plain02 pinchPred_plain02

/-- C1 counterexample: with the pinch predicate read literally as
"thumb/index distance < 0.08", the claim fails on sequences containing a
confident `Open_Palm` frame: the distance stays below 0.08 on all three
frames (a single false→true predicate transition), yet two `PinchStart`
events are emitted, because the `Open_Palm` frame force-resets the stored
flag. -/
theorem C1_counterexample :
    (runFrames false
        [plainFrame (1/20), palmFrame (1/20) (1/2), plainFrame (1/20)]).map
      (fun r => countStarts r.1) = some 2 ∧
    countRises false
      ([plainFrame (1/20), palmFrame (1/20) (1/2),
        plainFrame (1/20)].map pinchPredicate) = 1 := by
  constructor
  · rw [runEval_palmBreak]
    rfl
  · have hp : pinchPredicate (plainFrame (1/20)) = true := isPinching_005
    have hp2 : pinchPredicate (palmFrame (1/20) (1/2)) = true := isPinching_005
    rw [List.map_cons, List.map_cons, List.map_cons, List.map_nil, hp, hp2]
    rfl

/-- C2: on a frame with an empty landmark list arriving while the stored
pinch flag is set, the interpreter emits only `SetRotationSpeed 0` — it does
not emit `PinchEnd` and it leaves the flag set, contrary to the documented
intent of resetting the pinch state when tracking is lost. -/
theorem C2_no_hand_keeps_pinch_flag :
    step true noHandFrame = some ([Event.SetRotationSpeed 0], true) ∧
    countEnds [Event.SetRotationSpeed 0] = 0 :=
  ⟨stepEval_noHand_true, rfl⟩

/-- C3: on every successfully processed frame, a `SetFormation` event is
emitted exactly when the frame's first classified gesture has score above 0.4
and its label is `Open_Palm` (emitting `CHAOS`) or `Closed_Fist` (emitting
`FORMED`); at score ≤ 0.4 no formation event is emitted for any label. -/
theorem C3_formation_iff (p : Bool) (fr : Frame) (evs : List Event) (s : Bool)
    (h : step p fr = some (evs, s)) :
    (Event.SetFormation Formation.CHAOS ∈ evs ↔
      ∃ g, firstGesture fr = some g ∧ (2 : ℚ)/5 < g.score ∧
        g.categoryName = "Open_Palm") ∧
    (Event.SetFormation Formation.FORMED ∈ evs ↔
      ∃ g, firstGesture fr = some g ∧ (2 : ℚ)/5 < g.score ∧
        g.categoryName = "Closed_Fist") := by
  obtain ⟨gevs, cg, hc, hcase⟩ := step_shape p fr evs s h
  have hmem : ∀ f : Formation,
      (Event.SetFormation f ∈ evs ↔ Event.SetFormation f ∈ gevs) := by
    intro f
    rcases hcase with ⟨_, he1, _⟩ | ⟨p0, rest, tl, _, he1, _⟩ <;> subst he1 <;>
      simp [pinchStep_no_formation]
  rw [hmem Formation.CHAOS, hmem Formation.FORMED]
  rcases hgs : fr.gestures with _ | ⟨ginner, gss⟩
  · rw [hgs] at hc
    simp [classify] at hc
    simp [firstGesture, hgs, hc.1]
  · rcases ginner with _ | ⟨g, gt⟩
    · rw [hgs] at hc
      simp [classify] at hc
    · rw [hgs] at hc
      by_cases hs' : (2 : ℚ)/5 < g.score
      · rw [classify, if_pos hs'] at hc
        have hfg : firstGesture fr = some g := by rw [firstGesture, hgs]
        by_cases hop : g.categoryName = "Open_Palm"
        · rw [if_pos hop, if_neg (by rw [hop]; decide)] at hc
          simp at hc
          rw [← hc.1]
          constructor
          · simp [hfg, hs', hop]
          · constructor
            · intro hin
              simp at hin
            · rintro ⟨g', hg', _, hcf⟩
              rw [hfg] at hg'
              cases hg'
              rw [hop] at hcf
              exact absurd hcf (by decide)
        · rw [if_neg hop] at hc
          by_cases hcf : g.categoryName = "Closed_Fist"
          · rw [if_pos hcf] at hc
            simp at hc
            rw [← hc.1]
            constructor
            · constructor
              · intro hin
                simp at hin
              · rintro ⟨g', hg', _, hop'⟩
                rw [hfg] at hg'
                cases hg'
                exact absurd (by rw [hop']) hop
            · simp [hfg, hs', hcf]
          · rw [if_neg hcf] at hc
            simp at hc
            rw [hc.1]
            constructor
            · constructor
              · intro hin
                simp at hin
              · rintro ⟨g', hg', _, hop'⟩
                rw [hfg] at hg'
                cases hg'
                exact absurd hop' hop
            · constructor
              · intro hin
                simp at hin
              · rintro ⟨g', hg', _, hcf'⟩
                rw [hfg] at hg'
                cases hg'
                exact absurd hcf' hcf
      · rw [classify, if_neg hs'] at hc
        simp at hc
        rw [hc.1]
        have hfg : firstGesture fr = some g := by rw [firstGesture, hgs]
        constructor <;>
          (constructor
           · intro hin
             simp at hin
           · rintro ⟨g', hg', hsc', _⟩
             rw [hfg] at hg'
             cases hg'
             exact absurd hsc' hs')

/-- C3 witness: the confident `Open_Palm` frame emits `SetFormation CHAOS`
and no `SetFormation FORMED`. -/
theorem C3_formation_iff_witness :
    (Event.SetFormation Formation.CHAOS ∈
        [Event.SetFormation Formation.CHAOS, Event.SetRotationSpeed (3/40),
         Event.PinchEnd] ↔
      ∃ g, firstGesture (palmFrame (1/20) (1/2)) = some g ∧
        (2 : ℚ)/5 < g.score ∧ g.categoryName = "Open_Palm") ∧
    (Event.SetFormation Formation.FORMED ∈
        [Event.SetFormation Formation.CHAOS, Event.SetRotationSpeed (3/40),
         Event.PinchEnd] ↔
      ∃ g, firstGesture (palmFrame (1/20) (1/2)) = some g ∧
        (2 : ℚ)/5 < g.score ∧ g.categoryName = "Closed_Fist") :=
  C3_formation_iff true (palmFrame (1/20) (1/2)) _ _ stepEval_palm_true

/-- C4: every successfully processed frame emits exactly one rotation-speed
event, whose value is `(0.5 - landmark[0].x) * 0.15` outside the 0.01 dead
zone, 0 inside it, and 0 whenever no hand is present. -/
theorem C4_rotation_speed (p : Bool) (fr : Frame) (evs : List Event) (s : Bool)
    (h : step p fr = some (evs, s)) :
    rotationValues evs = [specRotationSpeed fr] := by
  obtain ⟨gevs, cg, hc, hcase⟩ := step_shape p fr evs s h
  obtain ⟨_, _, hg3⟩ := classify_counts _ _ _ hc
  unfold rotationValues at hg3
  rcases hcase with ⟨hl, he1, _⟩ | ⟨p0, rest, tl, hl, he1, _⟩ <;> subst he1
  · have hspec : specRotationSpeed fr = 0 := by
      unfold specRotationSpeed
      rw [hl]
    rw [hspec]
    unfold rotationValues
    rw [List.filterMap_append, hg3]
    rfl
  · have hspec : specRotationSpeed fr = rotValue p0 := by
      unfold specRotationSpeed
      rw [hl]
    have hpr := pinchStep_no_rotation cg p (p0 :: rest)
    unfold rotationValues at hpr
    rw [hspec]
    unfold rotationValues
    rw [List.filterMap_append, hg3, List.filterMap_cons]
    simp only [hpr]
    rfl

/-- C4 witness: the 0.20-distance plain frame emits exactly the rotation
value `0.075`. -/
theorem C4_rotation_speed_witness :
    rotationValues [Event.SetRotationSpeed (3/40)] =
      [specRotationSpeed (plainFrame (1/5))] :=
  C4_rotation_speed false (plainFrame (1/5)) _ _ stepEval_plain02

/-- Evaluation: the confident `Open_Palm` frame's current gesture. -/
lemma currentGesture_palm :
    currentGestureOf (palmFrame (1/20) (1/2)) = some "Open_Palm" := by
  norm_num [currentGestureOf, classify, palmFrame]

/-- C5 counterexample: a frame whose confident current gesture is `Open_Palm`
processed with the stored pinch flag set does emit a pinch event, namely one
`PinchEnd` — the claim that no pinch event at all is emitted on `Open_Palm`
frames is false. -/
theorem C5_counterexample :
    currentGestureOf (palmFrame (1/20) (1/2)) = some "Open_Palm" ∧
    (step true (palmFrame (1/20) (1/2))).map (fun r => countEnds r.1) =
      some 1 := by
  refine ⟨currentGesture_palm, ?_⟩
  rw [stepEval_palm_true]
  rfl

/-- C5 (amended): on a frame with a hand present whose confident current
gesture is `Open_Palm`, no `PinchStart` is ever emitted — even if the
thumb/index distance is below 0.08 — and a single `PinchEnd` is emitted
exactly when the stored pinch flag was set, the flag being reset to false. -/
theorem C5_open_palm_suppresses_start (p : Bool) (fr : Frame)
    (evs : List Event) (s : Bool) (h : step p fr = some (evs, s))
    (hg : currentGestureOf fr = some "Open_Palm")
    (hand : List Landmark) (tl : List (List Landmark))
    (hl : fr.landmarks = hand :: tl) :
    countStarts evs = 0 ∧ countEnds evs = (if p then 1 else 0) ∧ s = false := by
  obtain ⟨gevs, cg, hc, hcase⟩ := step_shape p fr evs s h
  have hcg : cg = some "Open_Palm" := by
    rw [currentGestureOf, hc] at hg
    exact hg
  rcases hcase with ⟨hl2, _, _⟩ | ⟨p0, rest, tl2, hl2, he1, hs⟩
  · rw [hl] at hl2
    cases hl2
  · rw [pinchStep_noGuard cg p _ (by rw [hcg]; simp)] at he1 hs
    subst he1
    obtain ⟨hg1, hg2, _⟩ := classify_counts _ _ _ hc
    refine ⟨?_, ?_, hs⟩ <;> cases p <;>
      simp [countStarts_append, countEnds_append, countStarts_cons,
        countEnds_cons, countStarts_nil, countEnds_nil, hg1, hg2,
        Event.isStart, Event.isEnd]

/-- C5 witness: the confident `Open_Palm` frame with the flag set emits no
`PinchStart`, one `PinchEnd`, and resets the flag. -/
theorem C5_open_palm_suppresses_start_witness :
    countStarts [Event.SetFormation Formation.CHAOS,
      Event.SetRotationSpeed (3/40), Event.PinchEnd] = 0 ∧
    countEnds [Event.SetFormation Formation.CHAOS,
      Event.SetRotationSpeed (3/40), Event.PinchEnd] = (if true then 1 else 0) ∧
    false = false :=
  C5_open_palm_suppresses_start true (palmFrame (1/20) (1/2)) _ _
    stepEval_palm_true currentGesture_palm (handLm (1/20)) [] rfl

/-- C6 counterexample: a malformed frame (a hand with 5 landmarks, wrist at
x = 0) is not treated as "no hand" for rotation: the emitted rotation speed
is 0.075, not 0. -/
theorem C6_counterexample :
    (step false shortHandFrame).map (fun r => rotationValues r.1) =
      some [3/40] ∧ ¬((3 : ℚ)/40 = 0) := by
  constructor
  · rw [stepEval_short]
    rfl
  · norm_num

/-- C6 (amended): a frame reporting a hand with at least one but fewer than 9
landmarks is processed without error whenever gesture classification
succeeds: rotation is still driven by landmark 0 through the usual dead-zone
formula (not forced to 0), pinch evaluation is skipped — no `PinchStart`, a
single forced `PinchEnd` exactly if the stored flag was set — and the stored
flag ends up false. -/
theorem C6_malformed_frames (p : Bool) (fr : Frame) (p0 : Landmark)
    (rest : List Landmark) (tl : List (List Landmark))
    (hl : fr.landmarks = (p0 :: rest) :: tl)
    (hlen : (p0 :: rest).length < 9)
    (hgs : (classify fr.gestures).isSome = true) :
    ∃ evs, step p fr = some (evs, false) ∧
      rotationValues evs = [specRotationSpeed fr] ∧
      countStarts evs = 0 ∧ countEnds evs = (if p then 1 else 0) := by
  rcases hc : classify fr.gestures with _ | ⟨gevs, cg⟩
  · rw [hc] at hgs
    cases hgs
  · have hstep := step_eval_hand p fr gevs cg p0 rest tl hc hl
    rw [pinchStep_noGuard cg p _ (fun hco => absurd hco.1 (by omega))] at hstep
    obtain ⟨hg1, hg2, hg3⟩ := classify_counts _ _ _ hc
    refine ⟨_, hstep, ?_, ?_, ?_⟩
    · have hspec : specRotationSpeed fr = rotValue p0 := by
        unfold specRotationSpeed
        rw [hl]
      unfold rotationValues at hg3 ⊢
      rw [hspec, List.filterMap_append, hg3, List.filterMap_cons]
      cases p <;> rfl
    · cases p <;>
        simp [countStarts_append, countStarts_cons, countStarts_nil, hg1,
          Event.isStart]
    · cases p <;>
        simp [countEnds_append, countEnds_cons, countEnds_nil, hg2,
          Event.isEnd]

/-- C6 witness: the 5-landmark frame from the unset flag. -/
theorem C6_malformed_frames_witness :
    ∃ evs, step false shortHandFrame = some (evs, false) ∧
      rotationValues evs = [specRotationSpeed shortHandFrame] ∧
      countStarts evs = 0 ∧ countEnds evs = (if false then 1 else 0) :=
  C6_malformed_frames false shortHandFrame zl [zl, zl, zl, zl] [] rfl
    (by decide) rfl

/-- C7: every emitted `PinchStart (x, y)` carries the midpoint of the first
hand's thumb tip (landmark 4) and index tip (landmark 8), with the vertical
axis flipped: `x = (t.x + i.x) / 2` and `y = 1 - (t.y + i.y) / 2`. -/
theorem C7_pinch_start_coordinates (p : Bool) (fr : Frame) (evs : List Event)
    (s : Bool) (x y : ℚ) (h : step p fr = some (evs, s))
    (hm : Event.PinchStart x y ∈ evs) :
    ∃ hand tl t i, fr.landmarks = hand :: tl ∧
      hand.get? 4 = some t ∧ hand.get? 8 = some i ∧
      x = (t.x + i.x) / 2 ∧ y = 1 - (t.y + i.y) / 2 := by
  obtain ⟨gevs, cg, hc, hcase⟩ := step_shape p fr evs s h
  have hng : Event.PinchStart x y ∉ gevs := by
    rcases classify_shape _ _ _ hc with hg | hg | hg <;> subst hg <;> simp
  rcases hcase with ⟨hl, he1, _⟩ | ⟨p0, rest, tl, hl, he1, _⟩ <;> subst he1
  · rw [List.mem_append] at hm
    rcases hm with hm | hm
    · exact absurd hm hng
    · simp at hm
  · rw [List.mem_append, List.mem_cons] at hm
    rcases hm with hm | hm | hm
    · exact absurd hm hng
    · simp at hm
    · obtain ⟨h9, hx, hy⟩ := pinchStep_start_mem cg p (p0 :: rest) x y hm
      refine ⟨p0 :: rest, tl, (p0 :: rest).getD 4 ⟨0, 0, 0⟩,
        (p0 :: rest).getD 8 ⟨0, 0, 0⟩, hl,
        get?_of_getD _ 4 (by omega), get?_of_getD _ 8 (by omega), ?_, ?_⟩
      · rw [hx]
        rfl
      · rw [hy]
        rfl

/-- C7 witness: the `PinchStart` of the 0.05-distance frame carries
`(0.025, 1)`, the flipped midpoint of its thumb and index tips. -/
theorem C7_pinch_start_coordinates_witness :
    ∃ hand tl t i, (plainFrame (1/20)).landmarks = hand :: tl ∧
      hand.get? 4 = some t ∧ hand.get? 8 = some i ∧
      (1 : ℚ)/40 = (t.x + i.x) / 2 ∧ (1 : ℚ) = 1 - (t.y + i.y) / 2 :=
  C7_pinch_start_coordinates false (plainFrame (1/20)) _ _ (1/40) 1
    stepEval_plain005 (by simp)

/-- C8: applying `SetFormation FORMED` to any scene-controller state clears
the selected ornament, and applying any `SetFormation` overwrites the
formation with the given value. -/
theorem C8_formed_clears_selection :
    (∀ s : SceneState, (applySetFormation s Formation.FORMED).selected = none) ∧
    (∀ (s : SceneState) (f : Formation),
      (applySetFormation s f).formation = f) := by
  constructor
  · intro s
    simp [applySetFormation]
  · intro s f
    simp [applySetFormation]

/-- C9: `PinchStart` is ignored by the scene controller whenever the
formation is not `CHAOS`; in `CHAOS`, with a random draw in `[0, 1)` and a
hit-test collaborator that only reports ornament indices, the selection is
always set to a valid index below the ornament count — the hit-test result
when it finds a match, the random fallback otherwise. -/
theorem C9_pinch_start_selection (s : SceneState) (hit : Option ℕ) (r : ℚ) :
    (s.formation ≠ Formation.CHAOS → handlePinchStart s hit r = s) ∧
    (s.formation = Formation.CHAOS → 0 ≤ r → r < 1 →
      (∀ j, hit = some j → j < ornamentCount) →
      ∃ i, i < ornamentCount ∧
        (handlePinchStart s hit r).selected = some i ∧
        (hit = some i ∨ (hit = none ∧ i = randomFallback r))) := by
  constructor
  · intro hne
    unfold handlePinchStart
    rw [if_pos hne]
  · intro hch h0 h1 hhit
    unfold handlePinchStart
    rw [if_neg (by simp [hch])]
    rcases hit with _ | j
    · refine ⟨randomFallback r, ?_, rfl, Or.inr ⟨rfl, rfl⟩⟩
      unfold randomFallback
      have h2 : r * (ornamentCount : ℚ) < (ornamentCount : ℚ) := by
        nlinarith [show (0 : ℚ) < (ornamentCount : ℚ) by norm_num [ornamentCount]]
      have h3 : ⌊r * (ornamentCount : ℚ)⌋ < (ornamentCount : ℤ) :=
        Int.floor_lt.mpr (by exact_mod_cast h2)
      norm_num [ornamentCount] at h3 ⊢
      omega
    · exact ⟨j, hhit j rfl, rfl, Or.inl rfl⟩

/-- C9 witness: in `CHAOS` with a hit-test match at index 5, the controller
selects index 5. -/
theorem C9_pinch_start_selection_witness :
    ∃ i, i < ornamentCount ∧
      (handlePinchStart ⟨Formation.CHAOS, 0, none⟩ (some 5) 0).selected =
        some i ∧
      (some 5 = some i ∨ (some 5 = (none : Option ℕ) ∧ i = randomFallback 0)) :=
  (C9_pinch_start_selection ⟨Formation.CHAOS, 0, none⟩ (some 5) 0).2 rfl
    le_rfl zero_lt_one (fun j hj => by cases hj; decide)

/-- Evaluation: the 0.2 confidence does not exceed the 0.4 threshold. -/
lemma fifth_le_two_fifths : (1 : ℚ)/5 ≤ (2 : ℚ)/5 := by norm_num

/-- C10: `Open_Palm` only suppresses pinch detection at confidence above 0.4:
on a frame whose first classified gesture is `Open_Palm` with score ≤ 0.4, a
hand present with at least 9 landmarks, and thumb/index distance below 0.08,
pinch evaluation still runs, so from the unset flag a `PinchStart` is emitted
and the flag becomes set. -/
theorem C10_low_confidence_open_palm (fr : Frame) (g : Gesture)
    (gt : List Gesture) (gss : List (List Gesture))
    (hgs : fr.gestures = (g :: gt) :: gss)
    (hname : g.categoryName = "Open_Palm") (hsc : g.score ≤ (2 : ℚ)/5)
    (p0 : Landmark) (rest : List Landmark) (tl : List (List Landmark))
    (hl : fr.landmarks = (p0 :: rest) :: tl)
    (h9 : 9 ≤ (p0 :: rest).length)
    (hd : isCurrentlyPinching (p0 :: rest) = true) :
    ∃ evs, step false fr = some (evs, true) ∧ countStarts evs = 1 := by
  have hc : classify fr.gestures = some ([], none) := by
    rw [hgs, classify, if_neg (not_lt.mpr hsc)]
  have hstep := step_eval_hand false fr [] none p0 rest tl hc hl
  rw [pinchStep_guard none false _ h9 (by simp)] at hstep
  rw [hd] at hstep
  simp at hstep
  refine ⟨_, hstep, ?_⟩
  simp [countStarts_cons, countStarts_nil, Event.isStart]

/-- C10 witness: the low-confidence (0.2) `Open_Palm` frame with the
0.05-distance hand emits a `PinchStart`. -/
theorem C10_low_confidence_open_palm_witness :
    ∃ evs, step false (palmFrame (1/20) (1/5)) = some (evs, true) ∧
      countStarts evs = 1 :=
  C10_low_confidence_open_palm (palmFrame (1/20) (1/5)) ⟨"Open_Palm", 1/5⟩
    [] [] rfl rfl fifth_le_two_fifths zl ((handLm (1/20)).tail) [] rfl
    (by decide) isPinching_005
